import Mathlib

set_option maxHeartbeats 1000000
set_option maxRecDepth 8000

/-!
Verification of the cross-reference resolution and link-path-construction
engine of `docfx_markdown_gen_log.py`.

Python strings are modelled as lists of characters (`PyStr`); Python
functions that can raise are modelled as `Except PyStr _`-valued
functions. Each definition carries a pointer to the source lines it
embeds.
-/

/-- Python strings are modelled as lists of characters. -/
abbrev PyStr := List Char

/-- Embed a Lean string literal into the model's string type. -/
def str (s : String) : PyStr := s.toList

/-- Python single-character `s.replace(a, b)` for one-character `a`, `b`:
character-wise substitution. -/
def replaceChar (s : PyStr) (a b : Char) : PyStr :=
  s.map (fun c => if c = a then b else c)

/-- Python `s.replace(a, "")` for a single character `a`: drops every
occurrence of `a`. -/
def removeChar (s : PyStr) (a : Char) : PyStr :=
  s.filter (fun c => c != a)

/-- Python `s.lower()` (character-wise; adequate for the ASCII member
names this program handles). -/
def lowerStr (s : PyStr) : PyStr := s.map Char.toLower

/-- Concatenation of a list of strings. -/
def strcat : List PyStr → PyStr
  | [] => []
  | s :: r => s ++ strcat r

/-- Character-wise expansion of a string; used to model chains of
`str.replace` whose replacement texts never contain a later pattern. -/
def concatMapChar (f : Char → PyStr) (s : PyStr) : PyStr :=
  strcat (s.map f)

/-- Source `html_escape` (lines 217-221):
`text.replace("<", "&lt;").replace(">", "&gt;")`. The replacement texts
contain neither `<` nor `>`, so the chain is character-wise. -/
def html_escape (s : PyStr) : PyStr :=
  concatMapChar
    (fun c => if c = '<' then str "&lt;" else if c = '>' then str "&gt;" else [c]) s

/-- Source `file_escape` (lines 223-227):
replace `<` and `>` by a backtick and a space by `%20`; the chain of
three `replace` calls is character-wise. -/
def file_escape (s : PyStr) : PyStr :=
  concatMapChar
    (fun c =>
      if c = '<' then str "`"
      else if c = '>' then str "`"
      else if c = ' ' then str "%20"
      else [c]) s

/-- Source `config.typesGrouping` record (lines 186-188). -/
structure ConfigTypesGrouping where
  enabled : Bool
  min_count : Int
deriving DecidableEq

/-- Source `Config` (lines 190-199), restricted to the fields the link
engine reads (`types_grouping`, `rewrite_interlinks`); the path and
newline options are not consulted by any embedded function. -/
structure Config where
  types_grouping : Option ConfigTypesGrouping
  rewrite_interlinks : Bool
deriving DecidableEq

/-- Source `Parameter` (lines 127-131), restricted to the fields read by
the extension-method key (`type`); `id` kept for shape. -/
structure Parameter where
  id : PyStr
  type : PyStr
deriving DecidableEq

/-- Source `Syntax` dataclass (lines 143-149), restricted to
`parameters` (the only field the embedded logic reads). The source name
is a Lean keyword, hence `SyntaxInfo`. -/
structure SyntaxInfo where
  parameters : Option (List Parameter)
deriving DecidableEq

/-- Source `Item` (lines 157-179), restricted to the fields read by the
link engine and the embedded parts of the page renderer. The source
field `namespace` is a Lean keyword, hence `nmspace`; the source field
`syntax` is a Lean keyword, hence `syn`. -/
structure Item where
  uid : PyStr
  parent : PyStr
  name : PyStr
  full_name : PyStr
  type : PyStr
  nmspace : PyStr
  derived_classes : Option (List PyStr)
  implements : Option (List PyStr)
  extension_methods : Option (List PyStr)
  syn : Option SyntaxInfo
deriving DecidableEq

/-- Source lookup `next((i for i in items if i.uid == uid), None)`
(lines 375, 383, 428). -/
def lookupUid (items : List Item) (uid : PyStr) : Option Item :=
  items.find? (fun i => i.uid == uid)

/-- The five groupable kinds, in the order of the membership test at
line 399. -/
def groupableKinds : List PyStr :=
  [str "Class", str "Interface", str "Enum", str "Struct", str "Delegate"]

/-- Source `get_type_path_part` (lines 202-215): the fixed
kind-to-directory dictionary; any other kind raises `ValueError`. -/
def get_type_path_part (type_name : PyStr) : Except PyStr PyStr :=
  if type_name = str "Class" then .ok (str "Classes")
  else if type_name = str "Struct" then .ok (str "Structs")
  else if type_name = str "Interface" then .ok (str "Interfaces")
  else if type_name = str "Enum" then .ok (str "Enums")
  else if type_name = str "Delegate" then .ok (str "Delegates")
  else .error (str "Unknown type: " ++ type_name)

/-- Split a character list at the first occurrence of `c`: returns the
part strictly before and the part strictly after that occurrence. -/
def splitAtFirst (c : Char) : List Char → Option (List Char × List Char)
  | [] => none
  | x :: xs =>
    if x = c then some ([], xs)
    else (splitAtFirst c xs).map (fun p => (x :: p.1, p.2))

/-- Source lines 378-386: `start_idx = uid.find('{')`,
`end_idx = uid.rfind('}')`; when both exist the candidate is
`uid[:start_idx] + "`1" + uid[end_idx+1:]`. The prefix before the first
`{` is `splitAtFirst '{'`; the suffix after the last `}` is the reverse
of the prefix of the reversed string before its first `}`. -/
def tryGenericCandidate (uid : PyStr) : Option PyStr :=
  match splitAtFirst '{' uid with
  | none => none
  | some (pre, _) =>
    match splitAtFirst '}' uid.reverse with
    | none => none
    | some (revPost, _) => some (pre ++ str "`1" ++ revPost.reverse)

/-- Source lines 375-386: direct uid lookup, then (when it fails) the
generic-argument fallback lookup on the candidate identifier. -/
def resolveRef (items : List Item) (uid : PyStr) : Option Item :=
  match lookupUid items uid with
  | some r => some r
  | none =>
    match tryGenericCandidate uid with
    | some cand => lookupUid items cand
    | none => none

/-- Source lines 389-391 and 431: the inert code span returned for an
unresolved reference: backticks around the identifier with `{` replaced
by `<` and `}` by `>`. -/
def unresolved_fallback (uid : PyStr) : PyStr :=
  str "`" ++ replaceChar (replaceChar uid '{' '<') '}' '>' ++ str "`"

/-- Source line 434: the member anchor
`reference.name.lower().replace("(", "").replace(")", "").replace("?", "")`. -/
def member_anchor (name : PyStr) : PyStr :=
  removeChar (removeChar (removeChar (lowerStr name) '(') ')') '?'

/-- Source `create_link` (lines 372-439). `nht` stands for the
`namespace_has_type_grouping_func` argument. Raising `ValueError`
(inside `get_type_path_part`) is modelled by `Except.error`. -/
def create_link (uid : PyStr) (link_from_grouped_type : Bool) (items : List Item)
    (nht : PyStr → Bool) (config : Config)
    (name_only : Bool) (link_from_index : Bool) : Except PyStr PyStr :=
  match resolveRef items uid with
  | none => .ok (unresolved_fallback uid)
  | some reference =>
    let name := if name_only then reference.name else reference.full_name
    let dots :=
      if link_from_index then str "./"
      else if link_from_grouped_type then str "../../"
      else str "../"
    let extension := if link_from_index then str ".md" else str ""
    if reference.type ∈ groupableKinds then
      if nht reference.nmspace then
        match get_type_path_part reference.type with
        | .error e => .error e
        | .ok part =>
          .ok (str "[" ++ html_escape name ++ str "](" ++
            file_escape (dots ++ reference.nmspace ++ str "/" ++ part ++ str "/" ++
              reference.name ++ extension) ++ str ")")
      else
        .ok (str "[" ++ html_escape name ++ str "](" ++
          file_escape (dots ++ reference.nmspace ++ str "/" ++
            reference.name ++ extension) ++ str ")")
    else if reference.type = str "Namespace" then
      if config.rewrite_interlinks then
        if link_from_index then
          .ok (str "[" ++ html_escape name ++ str "](" ++
            file_escape (dots ++ reference.name ++ str "/" ++ reference.name ++ extension) ++
            str ")")
        else
          .ok (str "[" ++ html_escape name ++ str "](" ++
            file_escape (dots ++ reference.name) ++ str ")")
      else
        .ok (str "[" ++ html_escape name ++ str "](" ++
          file_escape (dots ++ reference.name ++ str "/" ++ reference.name ++ extension) ++
          str ")")
    else
      match lookupUid items reference.parent with
      | none => .ok (unresolved_fallback uid)
      | some parent =>
        let anchor := member_anchor reference.name
        match
          (if nht parent.nmspace then
            (get_type_path_part parent.type).map (fun p => str "/" ++ p)
          else .ok (str "")) with
        | .error e => .error e
        | .ok path_part =>
          .ok (str "[" ++ html_escape name ++ str "](" ++
            file_escape (dots ++ reference.nmspace ++ path_part ++ str "/" ++
              parent.name ++ extension) ++ str "#" ++ anchor ++ str ")")

/-- Source `namespace_has_type_grouping` (lines 307-320): false when
grouping is absent or disabled; otherwise
`namespace in type_counts and type_counts[namespace] >= min_count`. -/
def namespace_has_type_grouping (nmspace : PyStr) (type_counts : List (PyStr × Nat))
    (config : Config) : Bool :=
  match config.types_grouping with
  | none => false
  | some tg =>
    if !tg.enabled then false
    else
      match type_counts.lookup nmspace with
      | none => false
      | some c => decide ((c : Int) ≥ tg.min_count)

/-- Source `count_types` (lines 615-645): per-namespace count of items
whose kind is one of the five groupable kinds, accumulated in input
order (the debug-only `namespace_type_details` bookkeeping is omitted). -/
def count_types (items : List Item) : List (PyStr × Nat) :=
  items.foldl
    (fun m i =>
      if i.type ∈ groupableKinds then
        match m.lookup i.nmspace with
        | some _ => m.map (fun p => if p.1 = i.nmspace then (p.1, p.2 + 1) else p)
        | none => m ++ [(i.nmspace, 1)]
      else m) []

/-- Source lines 649-652: the `is_grouped_type` boolean computed inline
by `generate_type_markdown`, abstracted over `item.namespace`:
`config.types_grouping and config.types_grouping.enabled and
item.namespace in type_counts and type_counts[item.namespace] >= min_count`. -/
def is_grouped_type (config : Config) (nmspace : PyStr)
    (type_counts : List (PyStr × Nat)) : Bool :=
  match config.types_grouping with
  | none => false
  | some tg =>
    tg.enabled &&
      (match type_counts.lookup nmspace with
       | none => false
       | some c => decide ((c : Int) ≥ tg.min_count))

/-- Modelled from the claim's words (C2), for comparison only:
`count.get(namespace, 0) >= configured_minimum` under the same
enabled-guard as the source function. -/
def namespace_is_grouped_spec (nmspace : PyStr) (type_counts : List (PyStr × Nat))
    (config : Config) : Bool :=
  match config.types_grouping with
  | none => false
  | some tg =>
    if !tg.enabled then false
    else decide ((((type_counts.lookup nmspace).getD 0 : Nat) : Int) ≥ tg.min_count)

/-- Source line 847 / 853: `item.name.replace('<', '`').replace('>', '`')`
(path escaping of the output file name; note no `%20`). -/
def path_escape_name (s : PyStr) : PyStr :=
  replaceChar (replaceChar s '<' '`') '>' '`'

/-- Source lines 841-854: the output path chosen by
`generate_type_markdown` for a type item (`os.path.join` modelled as
`/`-joining). -/
def type_output_path (config : Config) (item : Item)
    (type_counts : List (PyStr × Nat)) (output_path : PyStr) : Except PyStr PyStr :=
  if is_grouped_type config item.nmspace type_counts then
    match get_type_path_part item.type with
    | .error e => .error e
    | .ok part =>
      .ok (output_path ++ str "/" ++ item.nmspace ++ str "/" ++ part ++ str "/" ++
        path_escape_name item.name ++ str ".md")
  else
    .ok (output_path ++ str "/" ++ item.nmspace ++ str "/" ++
      path_escape_name item.name ++ str ".md")

/-- Source loop shape at lines 695-698 and 710-713: append each entry
and `", "` after every entry except the last. -/
def join_sep (sep : PyStr) : List PyStr → PyStr
  | [] => []
  | [x] => x
  | x :: y :: r => x ++ sep ++ join_sep sep (y :: r)

/-- The sequence of `create_link` calls made by the derived-class /
implements loops (lines 696, 711): each entry is resolved with the
calling page's grouping flag; a raise anywhere aborts the page. -/
def link_entries (config : Config) (items : List Item) (is_grouped : Bool)
    (nht : PyStr → Bool) : List PyStr → Except PyStr (List PyStr)
  | [] => .ok []
  | d :: rest =>
    match create_link d is_grouped items nht config false false with
    | .error e => .error e
    | .ok l =>
      match link_entries config items is_grouped nht rest with
      | .error e => .error e
      | .ok ls => .ok (l :: ls)

/-- Source lines 690-702: the derived-class block of
`generate_type_markdown`. Skipped when `item.derived_classes` is `None`
or empty (Python truthiness); the `<details>` wrapper is added exactly
when the list has more than 8 entries. -/
def derived_section (config : Config) (item : Item) (items : List Item)
    (is_grouped : Bool) (nht : PyStr → Bool) : Except PyStr PyStr :=
  match item.derived_classes with
  | none => .ok []
  | some [] => .ok []
  | some l =>
    match link_entries config items is_grouped nht l with
    | .error e => .error e
    | .ok links => .ok (str "**Derived:**  \n" ++
      (if l.length > 8 then str "\n<details>\n<summary>Expand</summary>\n\n" else []) ++
      join_sep (str ", ") links ++
      (if l.length > 8 then str "\n</details>\n" else []) ++
      str "\n\n")

/-- Source lines 705-717: the implemented-interface block of
`generate_type_markdown`, same collapsible rule as the derived block. -/
def implements_section (config : Config) (item : Item) (items : List Item)
    (is_grouped : Bool) (nht : PyStr → Bool) : Except PyStr PyStr :=
  match item.implements with
  | none => .ok []
  | some [] => .ok []
  | some l =>
    match link_entries config items is_grouped nht l with
    | .error e => .error e
    | .ok links => .ok (str "**Implements:**  \n" ++
      (if l.length > 8 then str "\n<details>\n<summary>Expand</summary>\n\n" else []) ++
      join_sep (str ", ") links ++
      (if l.length > 8 then str "\n</details>\n" else []) ++
      str "\n\n")

/-- Modelled from the claim's words (C8), for comparison: a collapsible
block wrapping a body. -/
def collapsible_wrap (body : PyStr) : PyStr :=
  str "\n<details>\n<summary>Expand</summary>\n\n" ++ body ++ str "\n</details>\n"

/-- Source lines 831-832: the synthetic extension-method key of an item,
`i.syntax.parameters[0].type + '.' + i.full_name[:i.full_name.find('(') if
'(' in i.full_name else len(i.full_name)]`, defined only when the item
has a syntax block with a non-empty parameter list. -/
def ext_method_key (i : Item) : Option PyStr :=
  match i.syn with
  | none => none
  | some sy =>
    match sy.parameters with
    | none => none
    | some [] => none
    | some (p :: _) => some (p.type ++ str "." ++ i.full_name.takeWhile (fun c => c != '('))

/-- Source lines 830-834: the guard of the item search in the
extension-method loop. -/
def ext_method_matches (i : Item) (ext_method : PyStr) : Bool :=
  match ext_method_key i with
  | none => false
  | some k => k == ext_method

/-- Source line 837: `ext_method.replace('{', '&#123;').replace('}', '&#125;')`
(character-wise, since the entity texts contain no brace). -/
def braces_to_entities (s : PyStr) : PyStr :=
  concatMapChar
    (fun c => if c = '{' then str "&#123;" else if c = '}' then str "&#125;" else [c]) s

/-- Source lines 829-839: one entry of the Extension Methods section;
an entry whose key matches no item renders as inert text with braces as
HTML entities (`&#123;` / `&#125;`). -/
def extension_entry (config : Config) (items : List Item) (is_grouped : Bool)
    (nht : PyStr → Bool) (ext_method : PyStr) : Except PyStr PyStr :=
  match items.find? (fun i => ext_method_matches i ext_method) with
  | none =>
    .ok (str "* " ++ braces_to_entities ext_method ++ str "\n")
  | some method =>
    (create_link method.uid is_grouped items nht config false false).map
      (fun l => str "* " ++ l ++ str "\n")

/-- The extension-method loop body concatenated over the list
(lines 828-839). -/
def extension_entries (config : Config) (items : List Item) (is_grouped : Bool)
    (nht : PyStr → Bool) : List PyStr → Except PyStr PyStr
  | [] => .ok []
  | em :: rest =>
    match extension_entry config items is_grouped nht em with
    | .error e => .error e
    | .ok entry =>
      match extension_entries config items is_grouped nht rest with
      | .error e => .error e
      | .ok r => .ok (entry ++ r)

/-- Source lines 826-839: the Extension Methods section of
`generate_type_markdown`; emitted only when
`item.extension_methods and len(item.extension_methods) > 1`. -/
def extension_methods_section (config : Config) (item : Item) (items : List Item)
    (is_grouped : Bool) (nht : PyStr → Bool) : Except PyStr PyStr :=
  match item.extension_methods with
  | none => .ok []
  | some ems =>
    if ems.length > 1 then
      match extension_entries config items is_grouped nht ems with
      | .error e => .error e
      | .ok body => .ok (str "## Extension Methods\n" ++ body)
    else .ok []

deriving instance DecidableEq for Except

/-! ## Generic string lemmas -/

lemma strcat_append (a b : List PyStr) : strcat (a ++ b) = strcat a ++ strcat b := by
  induction a with
  | nil => simp [strcat]
  | cons x xs ih => simp [strcat, ih]

lemma concatMapChar_append (f : Char → PyStr) (a b : PyStr) :
    concatMapChar f (a ++ b) = concatMapChar f a ++ concatMapChar f b := by
  simp [concatMapChar, strcat_append]

lemma file_escape_append (a b : PyStr) :
    file_escape (a ++ b) = file_escape a ++ file_escape b :=
  concatMapChar_append _ a b

/-! ## Kind-directory mapping lemmas -/

lemma gtpp_ok_of_mem (t : PyStr) (h : t ∈ groupableKinds) :
    ∃ d, get_type_path_part t = .ok d := by
  simp [groupableKinds] at h
  rcases h with h | h | h | h | h <;> subst h <;> exact ⟨_, rfl⟩

lemma gtpp_error_of_not_mem (t : PyStr) (h : t ∉ groupableKinds) :
    get_type_path_part t = .error (str "Unknown type: " ++ t) := by
  simp [groupableKinds] at h
  push_neg at h
  obtain ⟨h1, h2, h3, h4, h5⟩ := h
  simp [get_type_path_part, h1, h2, h3, h4, h5]

lemma gtpp_error_inv (t : PyStr) (e : PyStr) (h : get_type_path_part t = .error e) :
    t ∉ groupableKinds ∧ e = str "Unknown type: " ++ t := by
  by_cases hm : t ∈ groupableKinds
  · obtain ⟨d, hd⟩ := gtpp_ok_of_mem t hm
    rw [hd] at h
    cases h
  · have he := gtpp_error_of_not_mem t hm
    rw [he] at h
    injection h with hh
    exact ⟨hm, hh.symm⟩

/-! ## Branch computation lemmas for `create_link` -/

lemma create_link_of_unresolved (uid : PyStr) (g : Bool) (items : List Item)
    (nht : PyStr → Bool) (config : Config) (no idx : Bool)
    (h : resolveRef items uid = none) :
    create_link uid g items nht config no idx = .ok (unresolved_fallback uid) := by
  simp [create_link, h]

lemma create_link_type_grouped (uid : PyStr) (g : Bool) (items : List Item)
    (nht : PyStr → Bool) (config : Config) (no idx : Bool) (r : Item) (part : PyStr)
    (h : resolveRef items uid = some r) (hmem : r.type ∈ groupableKinds)
    (hg : nht r.nmspace = true) (hp : get_type_path_part r.type = .ok part) :
    create_link uid g items nht config no idx =
      .ok (str "[" ++ html_escape (if no then r.name else r.full_name) ++ str "](" ++
        file_escape ((if idx then str "./" else if g then str "../../" else str "../") ++
          r.nmspace ++ str "/" ++ part ++ str "/" ++ r.name ++
          (if idx then str ".md" else str "")) ++ str ")") := by
  simp [create_link, h, hmem, hg, hp]

lemma create_link_type_ungrouped (uid : PyStr) (g : Bool) (items : List Item)
    (nht : PyStr → Bool) (config : Config) (no idx : Bool) (r : Item)
    (h : resolveRef items uid = some r) (hmem : r.type ∈ groupableKinds)
    (hg : nht r.nmspace = false) :
    create_link uid g items nht config no idx =
      .ok (str "[" ++ html_escape (if no then r.name else r.full_name) ++ str "](" ++
        file_escape ((if idx then str "./" else if g then str "../../" else str "../") ++
          r.nmspace ++ str "/" ++ r.name ++
          (if idx then str ".md" else str "")) ++ str ")") := by
  simp [create_link, h, hmem, hg]

lemma create_link_namespace_default (uid : PyStr) (g : Bool) (items : List Item)
    (nht : PyStr → Bool) (config : Config) (no idx : Bool) (r : Item)
    (h : resolveRef items uid = some r) (ht : r.type = str "Namespace")
    (hrw : config.rewrite_interlinks = false) :
    create_link uid g items nht config no idx =
      .ok (str "[" ++ html_escape (if no then r.name else r.full_name) ++ str "](" ++
        file_escape ((if idx then str "./" else if g then str "../../" else str "../") ++
          r.name ++ str "/" ++ r.name ++
          (if idx then str ".md" else str "")) ++ str ")") := by
  have hng : str "Namespace" ∉ groupableKinds := by decide
  simp [create_link, h, ht, hrw, hng]

lemma create_link_namespace_rw_index (uid : PyStr) (g : Bool) (items : List Item)
    (nht : PyStr → Bool) (config : Config) (no : Bool) (r : Item)
    (h : resolveRef items uid = some r) (ht : r.type = str "Namespace")
    (hrw : config.rewrite_interlinks = true) :
    create_link uid g items nht config no true =
      .ok (str "[" ++ html_escape (if no then r.name else r.full_name) ++ str "](" ++
        file_escape (str "./" ++ r.name ++ str "/" ++ r.name ++ str ".md") ++ str ")") := by
  have hng : str "Namespace" ∉ groupableKinds := by decide
  simp [create_link, h, ht, hrw, hng]

lemma create_link_namespace_rw_nonindex (uid : PyStr) (g : Bool) (items : List Item)
    (nht : PyStr → Bool) (config : Config) (no : Bool) (r : Item)
    (h : resolveRef items uid = some r) (ht : r.type = str "Namespace")
    (hrw : config.rewrite_interlinks = true) :
    create_link uid g items nht config no false =
      .ok (str "[" ++ html_escape (if no then r.name else r.full_name) ++ str "](" ++
        file_escape ((if g then str "../../" else str "../") ++ r.name) ++ str ")") := by
  have hng : str "Namespace" ∉ groupableKinds := by decide
  simp [create_link, h, ht, hrw, hng]

lemma create_link_member_dangling (uid : PyStr) (g : Bool) (items : List Item)
    (nht : PyStr → Bool) (config : Config) (no idx : Bool) (r : Item)
    (h : resolveRef items uid = some r) (hng : r.type ∉ groupableKinds)
    (hns : r.type ≠ str "Namespace") (hpar : lookupUid items r.parent = none) :
    create_link uid g items nht config no idx = .ok (unresolved_fallback uid) := by
  simp [create_link, h, hng, hns, hpar]

lemma create_link_member_ungrouped (uid : PyStr) (g : Bool) (items : List Item)
    (nht : PyStr → Bool) (config : Config) (no idx : Bool) (r p : Item)
    (h : resolveRef items uid = some r) (hng : r.type ∉ groupableKinds)
    (hns : r.type ≠ str "Namespace") (hpar : lookupUid items r.parent = some p)
    (hg : nht p.nmspace = false) :
    create_link uid g items nht config no idx =
      .ok (str "[" ++ html_escape (if no then r.name else r.full_name) ++ str "](" ++
        file_escape ((if idx then str "./" else if g then str "../../" else str "../") ++
          r.nmspace ++ str "/" ++ p.name ++
          (if idx then str ".md" else str "")) ++
        str "#" ++ member_anchor r.name ++ str ")") := by
  have h0 : str "" = [] := rfl
  simp [create_link, h, hng, hns, hpar, hg, h0]

lemma create_link_member_grouped (uid : PyStr) (g : Bool) (items : List Item)
    (nht : PyStr → Bool) (config : Config) (no idx : Bool) (r p : Item) (part : PyStr)
    (h : resolveRef items uid = some r) (hng : r.type ∉ groupableKinds)
    (hns : r.type ≠ str "Namespace") (hpar : lookupUid items r.parent = some p)
    (hg : nht p.nmspace = true) (hp : get_type_path_part p.type = .ok part) :
    create_link uid g items nht config no idx =
      .ok (str "[" ++ html_escape (if no then r.name else r.full_name) ++ str "](" ++
        file_escape ((if idx then str "./" else if g then str "../../" else str "../") ++
          r.nmspace ++ (str "/" ++ part) ++ str "/" ++ p.name ++
          (if idx then str ".md" else str "")) ++
        str "#" ++ member_anchor r.name ++ str ")") := by
  simp [create_link, h, hng, hns, hpar, hg, hp, Except.map]

lemma create_link_member_grouped_error (uid : PyStr) (g : Bool) (items : List Item)
    (nht : PyStr → Bool) (config : Config) (no idx : Bool) (r p : Item) (e : PyStr)
    (h : resolveRef items uid = some r) (hng : r.type ∉ groupableKinds)
    (hns : r.type ≠ str "Namespace") (hpar : lookupUid items r.parent = some p)
    (hg : nht p.nmspace = true) (hp : get_type_path_part p.type = .error e) :
    create_link uid g items nht config no idx = .error e := by
  simp [create_link, h, hng, hns, hpar, hg, hp, Except.map]

lemma create_link_error_inv (uid : PyStr) (g : Bool) (items : List Item)
    (nht : PyStr → Bool) (config : Config) (no idx : Bool) (e : PyStr)
    (h : create_link uid g items nht config no idx = .error e) :
    ∃ t, t ∉ groupableKinds ∧ e = str "Unknown type: " ++ t := by
  rcases hres : resolveRef items uid with _ | r
  · rw [create_link_of_unresolved uid g items nht config no idx hres] at h
    cases h
  · by_cases hmem : r.type ∈ groupableKinds
    · cases hg : nht r.nmspace
      · rw [create_link_type_ungrouped uid g items nht config no idx r hres hmem hg] at h
        cases h
      · obtain ⟨d, hd⟩ := gtpp_ok_of_mem r.type hmem
        rw [create_link_type_grouped uid g items nht config no idx r d hres hmem hg hd] at h
        cases h
    · by_cases hns : r.type = str "Namespace"
      · cases hrw : config.rewrite_interlinks
        · rw [create_link_namespace_default uid g items nht config no idx r hres hns hrw] at h
          cases h
        · cases idx
          · rw [create_link_namespace_rw_nonindex uid g items nht config no r hres hns hrw] at h
            cases h
          · rw [create_link_namespace_rw_index uid g items nht config no r hres hns hrw] at h
            cases h
      · rcases hpar : lookupUid items r.parent with _ | p
        · rw [create_link_member_dangling uid g items nht config no idx r hres hmem hns hpar] at h
          cases h
        · cases hg : nht p.nmspace
          · rw [create_link_member_ungrouped uid g items nht config no idx r p hres hmem hns hpar hg] at h
            cases h
          · cases hgt : get_type_path_part p.type with
            | error e2 =>
              rw [create_link_member_grouped_error uid g items nht config no idx r p e2
                hres hmem hns hpar hg hgt] at h
              injection h with hh
              obtain ⟨hnm, he⟩ := gtpp_error_inv p.type e2 hgt
              exact ⟨p.type, hnm, by rw [← hh]; exact he⟩
            | ok part =>
              rw [create_link_member_grouped uid g items nht config no idx r p part
                hres hmem hns hpar hg hgt] at h
              cases h

lemma splitAtFirst_append (c : Char) (a r : List Char) (h : c ∉ a) :
    splitAtFirst c (a ++ c :: r) = some (a, r) := by
  induction a with
  | nil => simp [splitAtFirst]
  | cons x xs ih =>
    rw [List.mem_cons, not_or] at h
    have hx : ¬ x = c := fun hh => h.1 hh.symm
    simp [splitAtFirst, hx, ih h.2]

lemma tryGenericCandidate_single (a b c : PyStr) (ha : '{' ∉ a) (hc : '}' ∉ c) :
    tryGenericCandidate (a ++ str "\x7b" ++ b ++ str "\x7d" ++ c) = some (a ++ str "`1" ++ c) := by
  have h1 : str "\x7b" = ['{'] := rfl
  have h2 : str "\x7d" = ['}'] := rfl
  rw [h1, h2]
  have e1 : a ++ ['{'] ++ b ++ ['}'] ++ c = a ++ '{' :: (b ++ '}' :: c) := by
    simp [List.append_assoc]
  rw [e1]
  unfold tryGenericCandidate
  rw [splitAtFirst_append '{' a (b ++ '}' :: c) ha]
  have e2 : (a ++ '{' :: (b ++ '}' :: c)).reverse =
      c.reverse ++ '}' :: (a ++ '{' :: b).reverse := by
    simp [List.reverse_append, List.reverse_cons, List.append_assoc]
  rw [e2, splitAtFirst_append '}' c.reverse ((a ++ '{' :: b).reverse) (by simpa using hc)]
  simp

lemma is_grouped_type_eq_policy (config : Config) (ns : PyStr)
    (counts : List (PyStr × Nat)) :
    is_grouped_type config ns counts = namespace_has_type_grouping ns counts config := by
  unfold is_grouped_type namespace_has_type_grouping
  rcases config.types_grouping with _ | tg
  · rfl
  · cases htg : tg.enabled
    · simp [htg]
    · simp [htg]

/-! ## Shared concrete data for witnesses and counterexamples -/

/-- Configuration with no grouping and no rewrite flag. -/
def cfgNone : Config := ⟨none, false⟩

/-- Configuration with the rewrite-interlinks flag enabled. -/
def cfgRewrite : Config := ⟨none, true⟩

/-- Configuration with grouping enabled at the default minimum of 12. -/
def cfgTwelve : Config := ⟨some ⟨true, 12⟩, false⟩

/-- Configuration with grouping enabled at a minimum of 0. -/
def cfgMinZero : Config := ⟨some ⟨true, 0⟩, false⟩

/-- A namespace item named `N`. -/
def itemNsN : Item := ⟨str "N", [], str "N", str "N", str "Namespace", [], none, none, none, none⟩

/-! ## C1 -/

/-- C1 counterexample: with `rewriteInterlinks` enabled and a resolved
namespace `N`, the index-page link is `[N](./N/N.md)` — it still repeats
the namespace name — while the non-index link is `[N](../N)`, not the
claimed `{relative-prefix}/{name}/{name}` shape `[N](../N/N)`. -/
theorem claim_C1_counterexample :
    create_link (str "N") false [itemNsN] (fun _ => false) cfgRewrite false true =
      .ok (str "[N](./N/N.md)") ∧
    create_link (str "N") false [itemNsN] (fun _ => false) cfgRewrite false false =
      .ok (str "[N](../N)") ∧
    create_link (str "N") false [itemNsN] (fun _ => false) cfgRewrite false false ≠
      .ok (str "[N](../N/N)") :=
  ⟨by decide, by decide, by decide⟩

/-- C1 (amended): for every resolved reference of kind Namespace, when
the rewrite-interlinks flag is enabled the resolver changes the
NON-index variant to omit the duplicated name segment (and the page
extension), producing `{relative-prefix}{name}`, while the index-page
variant keeps the `./{name}/{name}.md` shape. -/
theorem claim_C1_rewrite_interlinks (uid : PyStr) (g : Bool) (items : List Item)
    (nht : PyStr → Bool) (config : Config) (no : Bool) (r : Item)
    (h : resolveRef items uid = some r) (ht : r.type = str "Namespace")
    (hrw : config.rewrite_interlinks = true) :
    create_link uid g items nht config no true =
      .ok (str "[" ++ html_escape (if no then r.name else r.full_name) ++ str "](" ++
        file_escape (str "./" ++ r.name ++ str "/" ++ r.name ++ str ".md") ++ str ")") ∧
    create_link uid g items nht config no false =
      .ok (str "[" ++ html_escape (if no then r.name else r.full_name) ++ str "](" ++
        file_escape ((if g then str "../../" else str "../") ++ r.name) ++ str ")") :=
  ⟨create_link_namespace_rw_index uid g items nht config no r h ht hrw,
   create_link_namespace_rw_nonindex uid g items nht config no r h ht hrw⟩

/-- C1 witness: the amended claim evaluated on the concrete namespace `N`. -/
theorem claim_C1_rewrite_interlinks_witness :
    create_link (str "N") false [itemNsN] (fun _ => false) cfgRewrite false true =
      .ok (str "[N](./N/N.md)") ∧
    create_link (str "N") false [itemNsN] (fun _ => false) cfgRewrite false false =
      .ok (str "[N](../N)") := by
  have h := claim_C1_rewrite_interlinks (str "N") false [itemNsN] (fun _ => false)
    cfgRewrite false itemNsN (by decide) (by decide) rfl
  exact ⟨by rw [h.1]; decide, by rw [h.2]; decide⟩

/-! ## C2 -/

/-- C2 counterexample: with grouping enabled at `minCount = 0` and a
namespace with no recorded count, the source function returns `false`
while the claim's formula `count.get(namespace, 0) >= minimum` is true. -/
theorem claim_C2_counterexample :
    namespace_has_type_grouping (str "X") [] cfgMinZero = false ∧
    namespace_is_grouped_spec (str "X") [] cfgMinZero = true ∧
    namespace_has_type_grouping (str "X") [] cfgMinZero ≠
      namespace_is_grouped_spec (str "X") [] cfgMinZero :=
  ⟨by decide, by decide, by decide⟩

/-- C2 (amended): `namespace_has_type_grouping` returns false
unconditionally when grouping is disabled or absent in configuration;
otherwise it returns true exactly when the namespace HAS a recorded
count and that count is at least the configured minimum. This agrees
with the claim's `count.get(namespace, 0) >= minimum` whenever the
configured minimum is at least 1. -/
theorem claim_C2_grouping_policy (ns : PyStr) (counts : List (PyStr × Nat))
    (config : Config) :
    (config.types_grouping = none →
      namespace_has_type_grouping ns counts config = false) ∧
    (∀ tg, config.types_grouping = some tg → tg.enabled = false →
      namespace_has_type_grouping ns counts config = false) ∧
    (∀ tg, config.types_grouping = some tg → tg.enabled = true →
      (namespace_has_type_grouping ns counts config = true ↔
        ∃ cnt, counts.lookup ns = some cnt ∧ tg.min_count ≤ (cnt : Int))) ∧
    (∀ tg, config.types_grouping = some tg → tg.enabled = true → 1 ≤ tg.min_count →
      namespace_has_type_grouping ns counts config =
        namespace_is_grouped_spec ns counts config) := by
  refine ⟨?_, ?_, ?_, ?_⟩
  · intro h
    simp [namespace_has_type_grouping, h]
  · intro tg h he
    simp [namespace_has_type_grouping, h, he]
  · intro tg h he
    rcases hl : counts.lookup ns with _ | cnt <;>
      simp [namespace_has_type_grouping, h, he, hl, ge_iff_le]
  · intro tg h he hm
    rcases hl : counts.lookup ns with _ | cnt <;>
      simp [namespace_has_type_grouping, namespace_is_grouped_spec, h, he, hl, ge_iff_le]
    omega

/-- Twelve class items in namespace `NS`, whose per-namespace count is
computed by `count_types`. -/
def itemsC2 : List Item :=
  List.replicate 12
    (⟨str "NS.C", [], str "C", str "NS.C", str "Class", str "NS",
      none, none, none, none⟩ : Item)

/-- C2 witness: the amended claim evaluated on a namespace with exactly
the threshold count, computed by `count_types` itself. -/
theorem claim_C2_grouping_policy_witness :
    namespace_has_type_grouping (str "NS") (count_types itemsC2) cfgTwelve = true := by
  have h := (claim_C2_grouping_policy (str "NS") (count_types itemsC2) cfgTwelve).2.2.1
    ⟨true, 12⟩ rfl rfl
  exact h.mpr ⟨12, by decide, by decide⟩

/-! ## C4 -/

/-- C4: for every reference identifier absent from the item graph (after
the generic-argument fallback), `create_link` never raises and returns a
non-empty inert code span containing the original identifier with every
`{` replaced by `<` and every `}` replaced by `>`. -/
theorem claim_C4_unresolved_inert (uid : PyStr) (g : Bool) (items : List Item)
    (nht : PyStr → Bool) (config : Config) (no idx : Bool)
    (h : resolveRef items uid = none) :
    create_link uid g items nht config no idx =
      .ok (str "`" ++ replaceChar (replaceChar uid '{' '<') '}' '>' ++ str "`") ∧
    (str "`" ++ replaceChar (replaceChar uid '{' '<') '}' '>' ++ str "`") ≠ [] := by
  refine ⟨create_link_of_unresolved uid g items nht config no idx h, ?_⟩
  have hb : str "`" = ['`'] := rfl
  simp [hb]

/-- C4 witness: the inert span for the absent identifier `A{B}`. -/
theorem claim_C4_witness :
    create_link (str "A{B}") false [] (fun _ => false) cfgNone false false =
      .ok (str "`A<B>`") := by
  have h := (claim_C4_unresolved_inert (str "A{B}") false [] (fun _ => false)
    cfgNone false false (by decide)).1
  rw [h]
  decide

/-! ## C7 -/

/-- C7: the kind-to-directory mapping is total on exactly the five
groupable kinds with the expected directory names and raises for every
other kind; and `create_link` never raises for unresolved or dangling
references — every error it can return is the contract-violation error
of `get_type_path_part` on a non-groupable kind. -/
theorem claim_C7_kind_mapping :
    (get_type_path_part (str "Class") = .ok (str "Classes") ∧
     get_type_path_part (str "Struct") = .ok (str "Structs") ∧
     get_type_path_part (str "Interface") = .ok (str "Interfaces") ∧
     get_type_path_part (str "Enum") = .ok (str "Enums") ∧
     get_type_path_part (str "Delegate") = .ok (str "Delegates")) ∧
    (∀ t, t ∉ groupableKinds →
      get_type_path_part t = .error (str "Unknown type: " ++ t)) ∧
    (∀ uid g items nht config no idx, resolveRef items uid = none →
      ∃ s, create_link uid g items nht config no idx = .ok s) ∧
    (∀ uid g items nht config no idx r, resolveRef items uid = some r →
      r.type ∉ groupableKinds → r.type ≠ str "Namespace" →
      lookupUid items r.parent = none →
      ∃ s, create_link uid g items nht config no idx = .ok s) ∧
    (∀ uid g items nht config no idx e,
      create_link uid g items nht config no idx = .error e →
      ∃ t, t ∉ groupableKinds ∧ e = str "Unknown type: " ++ t) := by
  refine ⟨⟨by decide, by decide, by decide, by decide, by decide⟩,
    gtpp_error_of_not_mem, ?_, ?_, ?_⟩
  · intro uid g items nht config no idx h
    exact ⟨_, create_link_of_unresolved uid g items nht config no idx h⟩
  · intro uid g items nht config no idx r hres hng hns hpar
    exact ⟨_, create_link_member_dangling uid g items nht config no idx r hres hng hns hpar⟩
  · intro uid g items nht config no idx e h
    exact create_link_error_inv uid g items nht config no idx e h

/-- C7 witness: the mapping rejects the kind `Method`, and an
unresolved reference still yields a successful (inert) result. -/
theorem claim_C7_witness :
    ((str "Method") ∉ groupableKinds ∧
      get_type_path_part (str "Method") = .error (str "Unknown type: " ++ str "Method")) ∧
    (∃ s, create_link (str "Zed") false [] (fun _ => false) cfgNone false false = .ok s) :=
  ⟨⟨by decide, claim_C7_kind_mapping.2.1 (str "Method") (by decide)⟩,
   claim_C7_kind_mapping.2.2.1 (str "Zed") false [] (fun _ => false) cfgNone
     false false (by decide)⟩

/-! ## C10 -/

/-- C10: the inline `is_grouped_type` boolean of the page renderer
equals the Grouping Policy function on the item's namespace for every
configuration and count table; consequently the renderer's output-page
location and the resolver's link construction are both governed by the
same policy decision. -/
theorem claim_C10_grouping_agreement :
    (∀ config ns counts,
      is_grouped_type config ns counts = namespace_has_type_grouping ns counts config) ∧
    (∀ config item counts out,
      type_output_path config item counts out =
        if namespace_has_type_grouping item.nmspace counts config then
          match get_type_path_part item.type with
          | .error e => .error e
          | .ok part =>
            .ok (out ++ str "/" ++ item.nmspace ++ str "/" ++ part ++ str "/" ++
              path_escape_name item.name ++ str ".md")
        else
          .ok (out ++ str "/" ++ item.nmspace ++ str "/" ++
            path_escape_name item.name ++ str ".md")) ∧
    (∀ uid g items nht config no idx r part,
      resolveRef items uid = some r → r.type ∈ groupableKinds →
      get_type_path_part r.type = .ok part →
      create_link uid g items nht config no idx =
        if nht r.nmspace then
          .ok (str "[" ++ html_escape (if no then r.name else r.full_name) ++ str "](" ++
            file_escape ((if idx then str "./" else if g then str "../../" else str "../") ++
              r.nmspace ++ str "/" ++ part ++ str "/" ++ r.name ++
              (if idx then str ".md" else str "")) ++ str ")")
        else
          .ok (str "[" ++ html_escape (if no then r.name else r.full_name) ++ str "](" ++
            file_escape ((if idx then str "./" else if g then str "../../" else str "../") ++
              r.nmspace ++ str "/" ++ r.name ++
              (if idx then str ".md" else str "")) ++ str ")")) := by
  refine ⟨fun config ns counts => is_grouped_type_eq_policy config ns counts, ?_, ?_⟩
  · intro config item counts out
    unfold type_output_path
    rw [is_grouped_type_eq_policy]
  · intro uid g items nht config no idx r part hres hmem hp
    cases hg : nht r.nmspace
    · simp only [Bool.false_eq_true, if_false]
      exact create_link_type_ungrouped uid g items nht config no idx r hres hmem hg
    · simp only [if_true]
      exact create_link_type_grouped uid g items nht config no idx r part hres hmem hg hp

/-- C10 witness: a grouped class link and the matching output path. -/
def itemC10 : Item := ⟨str "NS.C", [], str "C", str "NS.C", str "Class", str "NS",
  none, none, none, none⟩

theorem claim_C10_witness :
    create_link (str "NS.C") false [itemC10] (fun _ => true) cfgNone false false =
      .ok (str "[NS.C](../NS/Classes/C)") ∧
    type_output_path cfgTwelve itemC10 [(str "NS", 12)] (str "out") =
      .ok (str "out/NS/Classes/C.md") := by
  constructor
  · have h := claim_C10_grouping_agreement.2.2 (str "NS.C") false [itemC10]
      (fun _ => true) cfgNone false false itemC10 (str "Classes")
      (by decide) (by decide) (by decide)
    rw [h]
    decide
  · have h := claim_C10_grouping_agreement.2.1 cfgTwelve itemC10
      [(str "NS", 12)] (str "out")
    rw [h]
    decide

/-! ## C3 -/

/-- C3: for a reference identifier made of a single brace-delimited
segment (`a{b}c` with brace-free `a`, `b`, `c`), the fallback candidate
replaces the `{...}` occurrence by the arity suffix, and when the direct
lookup fails the resolver's result is exactly the direct lookup of that
candidate. -/
theorem claim_C3_generic_fallback (items : List Item) (a b c : PyStr)
    (ha1 : '{' ∉ a) (_ha2 : '}' ∉ a) (_hb1 : '{' ∉ b) (_hb2 : '}' ∉ b)
    (_hc1 : '{' ∉ c) (hc2 : '}' ∉ c) :
    tryGenericCandidate (a ++ str "\x7b" ++ b ++ str "\x7d" ++ c) =
      some (a ++ str "`1" ++ c) ∧
    (lookupUid items (a ++ str "\x7b" ++ b ++ str "\x7d" ++ c) = none →
      resolveRef items (a ++ str "\x7b" ++ b ++ str "\x7d" ++ c) =
        lookupUid items (a ++ str "`1" ++ c)) := by
  refine ⟨tryGenericCandidate_single a b c ha1 hc2, fun hl => ?_⟩
  unfold resolveRef
  rw [hl, tryGenericCandidate_single a b c ha1 hc2]

/-- The single item `N.T`1` of the C3 witness graph. -/
def itemT1 : Item := ⟨str "N.T`1", [], str "T<T>", str "N.T<T>", str "Class", str "N",
  none, none, none, none⟩

/-- C3 witness: resolving `N.T{N.T}` when only `N.T`1` exists in the
graph resolves to that item. -/
theorem claim_C3_witness :
    lookupUid [itemT1] (str "N.T{N.T}") = none ∧
    resolveRef [itemT1] (str "N.T{N.T}") = some itemT1 := by
  refine ⟨by decide, ?_⟩
  have h := (claim_C3_generic_fallback [itemT1] (str "N.T") (str "N.T") []
    (by decide) (by decide) (by decide) (by decide) (by decide) (by decide)).2
  have e : str "N.T" ++ str "\x7b" ++ str "N.T" ++ str "\x7d" ++ ([] : PyStr) = str "N.T{N.T}" := by
    decide
  rw [e] at h
  rw [h (by decide)]
  decide

/-! ## C5 -/

/-- The four member kinds named by the claim. -/
def memberKinds : List PyStr := [str "Method", str "Property", str "Field", str "Event"]

lemma member_kind_facts (t : PyStr) (h : t ∈ memberKinds) :
    t ∉ groupableKinds ∧ t ≠ str "Namespace" := by
  simp [memberKinds] at h
  rcases h with h | h | h | h <;> subst h <;> exact ⟨by decide, by decide⟩

/-- C5: for every resolved reference of a member kind, a dangling parent
yields the inert fallback without raising; otherwise the link targets
the parent type's page, with fragment anchor equal to the member's name
lower-cased with `(`, `)`, `?` removed, and with the kind-directory
segment present exactly when the Grouping Policy holds on the parent's
namespace. -/
theorem claim_C5_member_links (uid : PyStr) (g : Bool) (items : List Item)
    (nht : PyStr → Bool) (config : Config) (no idx : Bool) (r : Item)
    (hres : resolveRef items uid = some r) (hm : r.type ∈ memberKinds) :
    (lookupUid items r.parent = none →
      create_link uid g items nht config no idx = .ok (unresolved_fallback uid)) ∧
    (∀ p, lookupUid items r.parent = some p → nht p.nmspace = false →
      create_link uid g items nht config no idx =
        .ok (str "[" ++ html_escape (if no then r.name else r.full_name) ++ str "](" ++
          file_escape ((if idx then str "./" else if g then str "../../" else str "../") ++
            r.nmspace ++ str "/" ++ p.name ++
            (if idx then str ".md" else str "")) ++
          str "#" ++ member_anchor r.name ++ str ")")) ∧
    (∀ p part, lookupUid items r.parent = some p → nht p.nmspace = true →
      get_type_path_part p.type = .ok part →
      create_link uid g items nht config no idx =
        .ok (str "[" ++ html_escape (if no then r.name else r.full_name) ++ str "](" ++
          file_escape ((if idx then str "./" else if g then str "../../" else str "../") ++
            r.nmspace ++ (str "/" ++ part) ++ str "/" ++ p.name ++
            (if idx then str ".md" else str "")) ++
          str "#" ++ member_anchor r.name ++ str ")")) := by
  obtain ⟨hng, hns⟩ := member_kind_facts r.type hm
  refine ⟨fun hpar => ?_, fun p hpar hg => ?_, fun p part hpar hg hp => ?_⟩
  · exact create_link_member_dangling uid g items nht config no idx r hres hng hns hpar
  · exact create_link_member_ungrouped uid g items nht config no idx r p hres hng hns hpar hg
  · exact create_link_member_grouped uid g items nht config no idx r p part hres hng hns hpar hg hp

/-- The parent class of the C5 witness. -/
def itemC5parent : Item := ⟨str "NS.C", [], str "C", str "NS.C", str "Class", str "NS",
  none, none, none, none⟩

/-- The method item of the C5 witness; its display name contains
parentheses and a question mark. -/
def itemC5method : Item := ⟨str "NS.C.M", str "NS.C", str "M(x)?", str "NS.C.M(x)?",
  str "Method", str "NS", none, none, none, none⟩

/-- C5 witness: a member link on a concrete graph, ungrouped parent
namespace; the anchor is `mx` (lower-cased, `(`/`)`/`?` stripped). -/
theorem claim_C5_witness :
    create_link (str "NS.C.M") false [itemC5parent, itemC5method] (fun _ => false)
      cfgNone false false = .ok (str "[NS.C.M(x)?](../NS/C#mx)") := by
  have h := (claim_C5_member_links (str "NS.C.M") false [itemC5parent, itemC5method]
    (fun _ => false) cfgNone false false itemC5method (by decide) (by decide)).2.1
    itemC5parent (by decide) rfl
  rw [h]
  decide

/-! ## C6 -/

lemma fe_dots_const (idx g : Bool) :
    file_escape (if idx then str "./" else if g then str "../../" else str "../") =
      (if idx then str "./" else if g then str "../../" else str "../") := by
  cases idx <;> cases g <;> decide

lemma fe_gdots_const (g : Bool) :
    file_escape (if g then str "../../" else str "../") =
      (if g then str "../../" else str "../") := by
  cases g <;> decide

lemma fe_ext_const (idx : Bool) :
    file_escape (if idx then str ".md" else str "") =
      (if idx then str ".md" else []) := by
  cases idx <;> decide

lemma fe_slash : file_escape (str "/") = str "/" := by decide

lemma fe_dotslash : file_escape (str "./") = str "./" := by decide

lemma fe_md : file_escape (str ".md") = str ".md" := by decide

/-- C6: every link constructed for a resolved reference (type, namespace
or member with a found parent) uses the relative prefix `./` when the
calling page is the index, `../../` when the calling page is grouped,
`../` otherwise, and appends the `.md` extension exactly when the
calling page is the index; the only material after the extension is an
optional `#anchor` fragment. -/
theorem claim_C6_depth_and_extension (uid : PyStr) (g : Bool) (items : List Item)
    (nht : PyStr → Bool) (config : Config) (no idx : Bool) (r : Item) (s : PyStr)
    (hres : resolveRef items uid = some r)
    (hok : create_link uid g items nht config no idx = .ok s)
    (hlink : r.type ∈ groupableKinds ∨ r.type = str "Namespace" ∨
      (lookupUid items r.parent).isSome = true) :
    ∃ nm core frag,
      s = str "[" ++ nm ++ str "](" ++
        (if idx then str "./" else if g then str "../../" else str "../") ++
        core ++ (if idx then str ".md" else []) ++ frag ++ str ")" ∧
      (frag = [] ∨ ∃ anch, frag = str "#" ++ anch) := by
  by_cases hmem : r.type ∈ groupableKinds
  · cases hg : nht r.nmspace
    · rw [create_link_type_ungrouped uid g items nht config no idx r hres hmem hg] at hok
      injection hok with hs
      refine ⟨html_escape (if no then r.name else r.full_name),
        file_escape (r.nmspace ++ str "/" ++ r.name), [], ?_, Or.inl rfl⟩
      rw [← hs]
      simp [file_escape_append, fe_dots_const, fe_ext_const, fe_slash, List.append_assoc]
    · obtain ⟨part, hp⟩ := gtpp_ok_of_mem r.type hmem
      rw [create_link_type_grouped uid g items nht config no idx r part hres hmem hg hp] at hok
      injection hok with hs
      refine ⟨html_escape (if no then r.name else r.full_name),
        file_escape (r.nmspace ++ str "/" ++ part ++ str "/" ++ r.name), [], ?_, Or.inl rfl⟩
      rw [← hs]
      simp [file_escape_append, fe_dots_const, fe_ext_const, fe_slash, List.append_assoc]
  · by_cases hns : r.type = str "Namespace"
    · cases hrw : config.rewrite_interlinks
      · rw [create_link_namespace_default uid g items nht config no idx r hres hns hrw] at hok
        injection hok with hs
        refine ⟨html_escape (if no then r.name else r.full_name),
          file_escape (r.name ++ str "/" ++ r.name), [], ?_, Or.inl rfl⟩
        rw [← hs]
        simp [file_escape_append, fe_dots_const, fe_ext_const, fe_slash, List.append_assoc]
      · cases idx
        · rw [create_link_namespace_rw_nonindex uid g items nht config no r hres hns hrw] at hok
          injection hok with hs
          refine ⟨html_escape (if no then r.name else r.full_name),
            file_escape r.name, [], ?_, Or.inl rfl⟩
          rw [← hs]
          simp [file_escape_append, fe_gdots_const, List.append_assoc]
        · rw [create_link_namespace_rw_index uid g items nht config no r hres hns hrw] at hok
          injection hok with hs
          refine ⟨html_escape (if no then r.name else r.full_name),
            file_escape (r.name ++ str "/" ++ r.name), [], ?_, Or.inl rfl⟩
          rw [← hs]
          simp [file_escape_append, fe_dotslash, fe_md, fe_slash, List.append_assoc]
    · rcases hlink with h | h | h
      · exact absurd h hmem
      · exact absurd h hns
      · obtain ⟨p, hpar⟩ := Option.isSome_iff_exists.mp h
        cases hg : nht p.nmspace
        · rw [create_link_member_ungrouped uid g items nht config no idx r p
            hres hmem hns hpar hg] at hok
          injection hok with hs
          refine ⟨html_escape (if no then r.name else r.full_name),
            file_escape (r.nmspace ++ str "/" ++ p.name),
            str "#" ++ member_anchor r.name, ?_, Or.inr ⟨member_anchor r.name, rfl⟩⟩
          rw [← hs]
          simp [file_escape_append, fe_dots_const, fe_ext_const, fe_slash, List.append_assoc]
        · cases hq : get_type_path_part p.type with
          | error e =>
            rw [create_link_member_grouped_error uid g items nht config no idx r p e
              hres hmem hns hpar hg hq] at hok
            simp at hok
          | ok part =>
            rw [create_link_member_grouped uid g items nht config no idx r p part
              hres hmem hns hpar hg hq] at hok
            injection hok with hs
            refine ⟨html_escape (if no then r.name else r.full_name),
              file_escape (r.nmspace ++ (str "/" ++ part) ++ str "/" ++ p.name),
              str "#" ++ member_anchor r.name, ?_, Or.inr ⟨member_anchor r.name, rfl⟩⟩
            rw [← hs]
            simp [file_escape_append, fe_dots_const, fe_ext_const, fe_slash, List.append_assoc]

/-- C6 witness: the decomposition at a concrete index-page namespace
link. -/
theorem claim_C6_witness :
    ∃ nm core frag,
      str "[N](./N/N.md)" = str "[" ++ nm ++ str "](" ++
        (if true then str "./" else if false then str "../../" else str "../") ++
        core ++ (if true then str ".md" else []) ++ frag ++ str ")" ∧
      (frag = [] ∨ ∃ anch, frag = str "#" ++ anch) :=
  claim_C6_depth_and_extension (str "N") false [itemNsN] (fun _ => false)
    cfgNone false true itemNsN (str "[N](./N/N.md)") (by decide) (by decide)
    (Or.inr (Or.inl (by decide)))

/-! ## C8 -/

/-- C8: the derived-class list and the implemented-interface list are
each wrapped in the collapsible block exactly when the list has more
than 8 entries, and rendered as the inline comma-separated list
otherwise. -/
theorem claim_C8_collapsible_lists (config : Config) (item : Item) (items : List Item)
    (g : Bool) (nht : PyStr → Bool) :
    (∀ l links, item.derived_classes = some l → l ≠ [] →
      link_entries config items g nht l = .ok links →
      derived_section config item items g nht =
        .ok (str "**Derived:**  \n" ++
          (if 8 < l.length then collapsible_wrap (join_sep (str ", ") links)
           else join_sep (str ", ") links) ++ str "\n\n")) ∧
    (∀ l links, item.implements = some l → l ≠ [] →
      link_entries config items g nht l = .ok links →
      implements_section config item items g nht =
        .ok (str "**Implements:**  \n" ++
          (if 8 < l.length then collapsible_wrap (join_sep (str ", ") links)
           else join_sep (str ", ") links) ++ str "\n\n")) := by
  refine ⟨?_, ?_⟩ <;> intro l links hd hne hl
  · rcases l with _ | ⟨x, xs⟩
    · exact absurd rfl hne
    · by_cases h8 : 8 < xs.length + 1
      · simp [derived_section, hd, hl, h8, collapsible_wrap, List.append_assoc]
      · simp [derived_section, hd, hl, h8, List.append_assoc]
  · rcases l with _ | ⟨x, xs⟩
    · exact absurd rfl hne
    · by_cases h8 : 8 < xs.length + 1
      · simp [implements_section, hd, hl, h8, collapsible_wrap, List.append_assoc]
      · simp [implements_section, hd, hl, h8, List.append_assoc]

/-- A derived-class target item for the C8 witness. -/
def itemD : Item := ⟨str "D", [], str "D", str "D", str "Class", str "M",
  none, none, none, none⟩

/-- A type item with a 10-entry derived-class list. -/
def itemTen : Item := ⟨str "B", [], str "B", str "B", str "Class", str "M",
  some [str "D", str "D", str "D", str "D", str "D", str "D", str "D", str "D",
    str "D", str "D"], none, none, none⟩

/-- A type item with a 5-entry derived-class list. -/
def itemFive : Item := ⟨str "B5", [], str "B5", str "B5", str "Class", str "M",
  some [str "D", str "D", str "D", str "D", str "D"], none, none, none⟩

/-- C8 witness: a 10-entry derived list is wrapped in the collapsible
block; a 5-entry list is rendered inline. -/
theorem claim_C8_witness :
    (∃ links, link_entries cfgNone [itemD] false (fun _ => false)
        [str "D", str "D", str "D", str "D", str "D", str "D", str "D", str "D",
          str "D", str "D"] = .ok links ∧
      derived_section cfgNone itemTen [itemD] false (fun _ => false) =
        .ok (str "**Derived:**  \n" ++ collapsible_wrap (join_sep (str ", ") links) ++
          str "\n\n")) ∧
    (∃ links, link_entries cfgNone [itemD] false (fun _ => false)
        [str "D", str "D", str "D", str "D", str "D"] = .ok links ∧
      derived_section cfgNone itemFive [itemD] false (fun _ => false) =
        .ok (str "**Derived:**  \n" ++ join_sep (str ", ") links ++ str "\n\n")) := by
  constructor
  · refine ⟨[str "[D](../M/D)", str "[D](../M/D)", str "[D](../M/D)", str "[D](../M/D)",
      str "[D](../M/D)", str "[D](../M/D)", str "[D](../M/D)", str "[D](../M/D)",
      str "[D](../M/D)", str "[D](../M/D)"], by decide, ?_⟩
    have h := (claim_C8_collapsible_lists cfgNone itemTen [itemD] false (fun _ => false)).1
      [str "D", str "D", str "D", str "D", str "D", str "D", str "D", str "D",
        str "D", str "D"]
      [str "[D](../M/D)", str "[D](../M/D)", str "[D](../M/D)", str "[D](../M/D)",
        str "[D](../M/D)", str "[D](../M/D)", str "[D](../M/D)", str "[D](../M/D)",
        str "[D](../M/D)", str "[D](../M/D)"]
      rfl (by decide) (by decide)
    rw [h]
    decide
  · refine ⟨[str "[D](../M/D)", str "[D](../M/D)", str "[D](../M/D)", str "[D](../M/D)",
      str "[D](../M/D)"], by decide, ?_⟩
    have h := (claim_C8_collapsible_lists cfgNone itemFive [itemD] false (fun _ => false)).1
      [str "D", str "D", str "D", str "D", str "D"]
      [str "[D](../M/D)", str "[D](../M/D)", str "[D](../M/D)", str "[D](../M/D)",
        str "[D](../M/D)"]
      rfl (by decide) (by decide)
    rw [h]
    decide

/-! ## C9 -/

lemma extension_entries_all_unmatched (config : Config) (items : List Item)
    (g : Bool) (nht : PyStr → Bool) (ems : List PyStr)
    (h : ∀ em ∈ ems, items.find? (fun i => ext_method_matches i em) = none) :
    extension_entries config items g nht ems =
      .ok (strcat (ems.map (fun em => str "* " ++ braces_to_entities em ++ str "\n"))) := by
  induction ems with
  | nil => simp [extension_entries, strcat]
  | cons em rest ih =>
    have h1 := h em (by simp)
    have h2 : ∀ x ∈ rest, items.find? (fun i => ext_method_matches i x) = none :=
      fun x hx => h x (by simp [hx])
    simp [extension_entries, extension_entry, h1, ih h2, strcat]

/-- C9: the Extension Methods section is emitted only when the
extension-method list has strictly more than one entry (absent or
singleton lists produce nothing), and every entry whose synthetic key
matches no item renders as inert text with braces as HTML entities,
without raising. -/
theorem claim_C9_extension_methods (config : Config) (item : Item) (items : List Item)
    (g : Bool) (nht : PyStr → Bool) :
    (item.extension_methods = none →
      extension_methods_section config item items g nht = .ok []) ∧
    (∀ ems, item.extension_methods = some ems → ems.length ≤ 1 →
      extension_methods_section config item items g nht = .ok []) ∧
    (∀ ems, item.extension_methods = some ems → 1 < ems.length →
      (∀ em ∈ ems, items.find? (fun i => ext_method_matches i em) = none) →
      extension_methods_section config item items g nht =
        .ok (str "## Extension Methods\n" ++
          strcat (ems.map (fun em => str "* " ++ braces_to_entities em ++ str "\n")))) := by
  refine ⟨?_, ?_, ?_⟩
  · intro h
    simp [extension_methods_section, h]
  · intro ems h hlen
    have hnotgt : ¬ ems.length > 1 := by omega
    simp [extension_methods_section, h, hnotgt]
  · intro ems h hlen hall
    simp [extension_methods_section, h, hlen, extension_entries_all_unmatched config items
      g nht ems hall]

/-- A type item with two (unmatchable) extension methods. -/
def itemExt2 : Item := ⟨str "E2", [], str "E2", str "E2", str "Class", str "M",
  none, none, some [str "A.B{C}", str "A.D"], none⟩

/-- A type item with exactly one extension method. -/
def itemExt1 : Item := ⟨str "E1", [], str "E1", str "E1", str "Class", str "M",
  none, none, some [str "A.B"], none⟩

/-- C9 witness: the two-entry list renders inert entries with brace
entities; the one-entry list produces no section. -/
theorem claim_C9_witness :
    extension_methods_section cfgNone itemExt2 [] false (fun _ => false) =
      .ok (str "## Extension Methods\n* A.B&#123;C&#125;\n* A.D\n") ∧
    extension_methods_section cfgNone itemExt1 [] false (fun _ => false) = .ok [] := by
  constructor
  · have h := (claim_C9_extension_methods cfgNone itemExt2 [] false (fun _ => false)).2.2
      [str "A.B{C}", str "A.D"] rfl (by decide) (fun em _ => rfl)
    rw [h]
    decide
  · exact (claim_C9_extension_methods cfgNone itemExt1 [] false (fun _ => false)).2.1
      [str "A.B"] rfl (by decide)
